import Mathlib

/-!
Verification development for the `mochicards` client library.

The definitions below are a shallow embedding of `src/mochicards/client.py`,
`src/mochicards/models.py` and `src/mochicards/errors.py`.  JSON wire values
are modelled by `JValue` (objects as ordered association lists, numbers as
integers, which covers every payload the client exchanges).  The pydantic v1
validation performed by the `Card`, `PaginatedCards` and `CardData` models is
embedded field by field: required fields, defaults, `Optional` fields, the
wire aliases declared in `Card.Config.fields`, and pydantic's silent dropping
of unknown keys.  Fallible steps return `Except`; pydantic aggregates all
field errors into one ValidationError while the embedding reports the first
failing field, which preserves exactly when validation fails.
-/

/-- JSON values as exchanged on the wire. Objects keep key order as an
association list; numbers are integers, which covers every value the client
sends or receives. -/
inductive JValue where
  | null
  | bool (b : Bool)
  | num (n : Int)
  | str (s : String)
  | arr (xs : List JValue)
  | obj (fields : List (String × JValue))

/-- Pydantic v1 `str` validation: strings pass through, numbers (including
Python booleans, which are `int`s) are stringified, anything else is
rejected. -/
def strValidate : JValue → Except String String
  | .str s => .ok s
  | .num n => .ok (toString n)
  | .bool b => .ok (if b then "True" else "False")
  | _ => .error "str type expected"

/-- Pydantic v1 `bool` validation: booleans pass, the integers 0 and 1 are
coerced, the usual true/false words are accepted as strings. -/
def boolValidate : JValue → Except String Bool
  | .bool b => .ok b
  | .num 0 => .ok false
  | .num 1 => .ok true
  | .str s =>
    if s = "0" || s = "off" || s = "f" || s = "false" || s = "n" || s = "no" then .ok false
    else if s = "1" || s = "on" || s = "t" || s = "true" || s = "y" || s = "yes" then .ok true
    else .error "value could not be parsed to a boolean"
  | _ => .error "value could not be parsed to a boolean"

/-- Pydantic v1 `Dict` validation: the value must be a JSON object. -/
def dictValidate : JValue → Except String (List (String × JValue))
  | .obj fs => .ok fs
  | _ => .error "value is not a valid dict"

/-- Pydantic v1 `List` validation: the value must be a JSON array. -/
def listValidate : JValue → Except String (List JValue)
  | .arr xs => .ok xs
  | _ => .error "value is not a valid list"

/-- Pydantic v1 `List[str]` validation: a JSON array whose elements all pass
`str` validation. -/
def strListValidate (v : JValue) : Except String (List String) := do
  let xs ← listValidate v
  xs.mapM strValidate

/-- Reads a run of leading decimal digits, returning the value read so far,
the number of digits consumed, and the remaining characters. -/
def grabDigitsAux (acc : Nat) (count : Nat) : List Char → Nat × Nat × List Char
  | [] => (acc, count, [])
  | c :: cs =>
    if c.isDigit then grabDigitsAux (acc * 10 + (c.toNat - 48)) (count + 1) cs
    else (acc, count, c :: cs)

/-- Reads the leading digits of a character list. -/
def grabDigits (cs : List Char) : Nat × Nat × List Char := grabDigitsAux 0 0 cs

/-- Checks the timezone tail of pydantic v1's datetime pattern:
empty, a literal Z, or a plus or minus sign followed by a 2-digit offset with an
optional colon-separated or juxtaposed 2-digit minute part. -/
def checkTz : List Char → Bool
  | [] => true
  | ['Z'] => true
  | c :: cs =>
    if c = '+' || c = '-' then
      let r := grabDigits cs
      if r.2.1 = 2 then
        match r.2.2 with
        | [] => true
        | ':' :: r2 =>
          let r3 := grabDigits r2
          r3.2.1 = 2 && r3.2.2.isEmpty
        | _ => false
      else r.2.1 = 4 && r.2.2.isEmpty
    else false

/-- Checks the optional seconds-and-fraction tail of pydantic v1's datetime
pattern, then the timezone tail. -/
def checkSecondsAndTz : List Char → Bool
  | ':' :: r =>
    let g := grabDigits r
    if 1 ≤ g.2.1 && g.2.1 ≤ 2 && g.1 ≤ 59 then
      match g.2.2 with
      | '.' :: r3 =>
        let g3 := grabDigits r3
        1 ≤ g3.2.1 && g3.2.1 ≤ 12 && checkTz g3.2.2
      | rest => checkTz rest
    else false
  | r => checkTz r

/-- Modelled from pydantic v1's datetime parsing for strings: the input must
match the library's datetime pattern (4-digit year, dashed date, a T or space
separator, hour and minute, optional seconds with an optional fraction, and
an optional timezone), and the field values must form a constructible
datetime.  Day-of-month is checked against 31 rather than the per-month
length; no claim depends on that refinement. -/
def isPydanticDatetimeString (s : String) : Bool :=
  let gy := grabDigits s.toList
  if gy.2.1 = 4 && 1 ≤ gy.1 then
    match gy.2.2 with
    | '-' :: r2 =>
      let gmo := grabDigits r2
      if 1 ≤ gmo.2.1 && gmo.2.1 ≤ 2 && 1 ≤ gmo.1 && gmo.1 ≤ 12 then
        match gmo.2.2 with
        | '-' :: r4 =>
          let gda := grabDigits r4
          if 1 ≤ gda.2.1 && gda.2.1 ≤ 2 && 1 ≤ gda.1 && gda.1 ≤ 31 then
            match gda.2.2 with
            | c :: r6 =>
              if c = 'T' || c = ' ' then
                let gho := grabDigits r6
                if 1 ≤ gho.2.1 && gho.2.1 ≤ 2 && gho.1 ≤ 23 then
                  match gho.2.2 with
                  | ':' :: r8 =>
                    let gmi := grabDigits r8
                    if 1 ≤ gmi.2.1 && gmi.2.1 ≤ 2 && gmi.1 ≤ 59 then
                      checkSecondsAndTz gmi.2.2
                    else false
                  | _ => false
                else false
              else false
            | [] => false
          else false
        | _ => false
      else false
    | _ => false
  else false

/-- A parsed datetime value.  Pydantic parses numbers as unix timestamps and
well-formed strings via its datetime pattern; the client never inspects the
parsed value, so the embedding keeps the accepted source form. -/
inductive MDateTime where
  | fromUnix (n : Int)
  | fromIso (s : String)

/-- Pydantic v1 `datetime` validation: numbers (and Python booleans, which
are `int`s) are unix timestamps, strings must match the datetime pattern,
everything else is rejected. -/
def datetimeValidate : JValue → Except String MDateTime
  | .num n => .ok (.fromUnix n)
  | .bool b => .ok (.fromUnix (if b then 1 else 0))
  | .str s =>
    if isPydanticDatetimeString s then .ok (.fromIso s)
    else .error "invalid datetime format"
  | _ => .error "invalid datetime format"

/-- Pydantic v1 `Dict[str, datetime]` validation: a JSON object whose values
all pass datetime validation. -/
def datetimeDictValidate (v : JValue) : Except String (List (String × MDateTime)) := do
  let fs ← dictValidate v
  fs.mapM (fun p => do
    let t ← datetimeValidate p.2
    pure (p.1, t))

/-- The validated `Card` model of `models.py`: the in-memory record a
successful decode produces.  Field order and defaults follow the pydantic
model. -/
structure Card where
  id : String
  content : String
  deck_id : String
  template_id : Option String
  fields : List (String × JValue)
  attachments : List JValue
  archived : Bool
  pos : Option String
  created_at : List (String × MDateTime)
  updated_at : List (String × MDateTime)
  tags : List String
  name : Option String
  references : List String
  reviews : List String

/-- A required pydantic field: absent keys are an error, present values are
validated. -/
def reqField (d : List (String × JValue)) (key : String)
    (validator : JValue → Except String α) : Except String α :=
  match List.lookup key d with
  | none => .error (key ++ ": field required")
  | some v => validator v

/-- A pydantic field with a non-None default: absent keys take the default,
present values are validated (an explicit null is rejected for these
non-Optional fields). -/
def dfltField (d : List (String × JValue)) (key : String) (dflt : α)
    (validator : JValue → Except String α) : Except String α :=
  match List.lookup key d with
  | none => .ok dflt
  | some v => validator v

/-- A pydantic `Optional` field: absent keys and explicit nulls give `none`,
other values are validated. -/
def optJField (d : List (String × JValue)) (key : String)
    (validator : JValue → Except String α) : Except String (Option α) :=
  match List.lookup key d with
  | none => .ok none
  | some .null => .ok none
  | some v => (validator v).map some

/-- Decoding a wire JSON object into a `Card`, per the pydantic model in
`models.py`: fields are read in declaration order under the aliases of
`Card.Config.fields` (deck-id, template-id, archived?, created-at,
updated-at); `id`, `content`, `deck-id`, `created-at` and `updated-at` are
required; unknown keys are ignored (pydantic's default extra-handling). -/
def decodeCard (d : List (String × JValue)) : Except String Card := do
  let id ← reqField d "id" strValidate
  let content ← reqField d "content" strValidate
  let deck_id ← reqField d "deck-id" strValidate
  let template_id ← optJField d "template-id" strValidate
  let fields ← dfltField d "fields" [] dictValidate
  let attachments ← dfltField d "attachments" [] listValidate
  let archived ← dfltField d "archived?" false boolValidate
  let pos ← optJField d "pos" strValidate
  let created_at ← reqField d "created-at" datetimeDictValidate
  let updated_at ← reqField d "updated-at" datetimeDictValidate
  let tags ← dfltField d "tags" [] strListValidate
  let name ← optJField d "name" strValidate
  let references ← dfltField d "references" [] strListValidate
  let reviews ← dfltField d "reviews" [] strListValidate
  pure { id := id, content := content, deck_id := deck_id, template_id := template_id,
         fields := fields, attachments := attachments, archived := archived, pos := pos,
         created_at := created_at, updated_at := updated_at, tags := tags, name := name,
         references := references, reviews := reviews }

/-- The wire keys the `Card` model consults: each declared field under its
alias.  Every other key on a response is ignored by pydantic. -/
def cardWireKeys : List String :=
  ["id", "content", "deck-id", "template-id", "fields", "attachments", "archived?",
   "pos", "created-at", "updated-at", "tags", "name", "references", "reviews"]

/-- A wire object with every key the `Card` model does not consult removed. -/
def knownOnly (d : List (String × JValue)) : List (String × JValue) :=
  d.filter (fun p => cardWireKeys.contains p.1)

/-- The page envelope of `models.py` (`PaginatedCards`): an optional
continuation bookmark and the page's cards. -/
structure PaginatedCards where
  bookmark : Option String
  docs : List Card

/-- One page request as issued by `_list_cards`: the params dict
deck-id / limit / bookmark (absent values are dropped from the query by the
HTTP layer). -/
structure PageRequest where
  deck_id : Option String
  limit : Option Int
  bookmark : Option String
deriving DecidableEq

/-- Python truthiness of the optional bookmark string: `not bookmark` is
true for None and for the empty string. -/
def pyFalsyOptStr : Option String → Bool
  | none => true
  | some s => s.isEmpty

/-- The pagination driver of `client.py` (`list_cards`): repeatedly request
a page, stop as soon as a page has no cards or a falsy bookmark, otherwise
yield the page's cards and continue from its bookmark.  The generator is
embedded as a fuel-indexed loop returning the yielded cards together with
the trace of page requests issued; fuel bounds only the number of loop
iterations examined. -/
def listCards (fetch : PageRequest → PaginatedCards) (deck_id : Option String)
    (limit : Option Int) : Option String → Nat → List Card × List PageRequest
  | _, 0 => ([], [])
  | bookmark, fuel + 1 =>
    let page := fetch ⟨deck_id, limit, bookmark⟩
    if page.docs.isEmpty || pyFalsyOptStr page.bookmark then
      ([], [⟨deck_id, limit, bookmark⟩])
    else
      let rest := listCards fetch deck_id limit page.bookmark fuel
      (page.docs ++ rest.1, ⟨deck_id, limit, bookmark⟩ :: rest.2)

/-- The Python exceptions the client can raise: `requests.HTTPError` from
`raise_for_status`, the three errors of `errors.py`, pydantic's
ValidationError, and ValueError from the constructor. -/
inductive PyException where
  | httpError (status : Nat)
  | mochiError (msg : String)
  | mochiAuthenticationError (msg : String)
  | mochiNotFoundError (msg : String)
  | validationError (msg : String)
  | valueError (msg : String)
deriving DecidableEq

/-- The client's immutable configuration, set by `MochiClient.__init__`. -/
structure MochiClient where
  api_key : String
  base_url : String

/-- The class attribute `MochiClient.BASE_URL`. -/
def MochiClient.BASE_URL : String := "https://api.mochi.cards/api"

/-- The message of the ValueError raised by `MochiClient.__init__`. -/
def apiKeyErrorMsg : String :=
  "API key must be provided either as argument or MOCHI_API_KEY environment variable"

/-- `MochiClient.__init__`: when the api_key argument is None the
MOCHI_API_KEY environment variable is consulted; a missing or falsy (empty)
key raises ValueError before anything else happens — the constructor's body
contains no HTTP call, so failure occurs with zero network requests. -/
def MochiClient.init (api_key : Option String) (env_mochi_api_key : Option String)
    (base_url : String) : Except PyException MochiClient :=
  let key := match api_key with
    | none => env_mochi_api_key
    | some k => some k
  match key with
  | none => .error (.valueError apiKeyErrorMsg)
  | some k =>
    if k.isEmpty then .error (.valueError apiKeyErrorMsg)
    else .ok { api_key := k, base_url := base_url }

/-- URL built by `create_card`. -/
def createCardUrl (c : MochiClient) : String := c.base_url ++ "/cards/"

/-- URL built by `get_card`. -/
def getCardUrl (c : MochiClient) (card_id : String) : String :=
  c.base_url ++ "/cards/" ++ card_id

/-- URL built by `_list_cards` (page requests of `list_cards`). -/
def listCardsUrl (c : MochiClient) : String := c.base_url ++ "/cards/"

/-- URL built by `update_card`. -/
def updateCardUrl (c : MochiClient) (card_id : String) : String :=
  c.base_url ++ "/cards/" ++ card_id

/-- URL built by `delete_card`. -/
def deleteCardUrl (c : MochiClient) (card_id : String) : String :=
  c.base_url ++ "/cards/" ++ card_id

/-- URL built by `trash_card`.  The source interpolates `self.BASE_URL` —
the class attribute — rather than the instance's configured `self.base_url`,
so the configured client is ignored here. -/
def trashCardUrl (_c : MochiClient) (card_id : String) : String :=
  MochiClient.BASE_URL ++ "/cards/" ++ card_id ++ "/trash"

/-- An HTTP response as seen by the client: a status code and a JSON object
body. -/
structure HttpResponse where
  status : Nat
  body : List (String × JValue)

/-- `requests.Response.raise_for_status`: any 4xx or 5xx status raises
`requests.HTTPError`; every other status is left alone. -/
def raiseForStatus (status : Nat) : Except PyException Unit :=
  if 400 ≤ status ∧ status ≤ 599 then .error (.httpError status) else .ok ()

/-- `get_card` applied to the HTTP response it received:
`raise_for_status()` followed by `Card(**response.json())`. -/
def getCard (resp : HttpResponse) : Except PyException Card := do
  let _ ← raiseForStatus resp.status
  match decodeCard resp.body with
  | .error e => .error (.validationError e)
  | .ok c => pure c

/-- How a Python argument reaches a pydantic constructor: not passed at all
(the model default applies) or passed with an optional value (where `none`
is Python's None). -/
inductive PyArg (α : Type) where
  | omitted
  | given (v : Option α)

/-- Pydantic v1 validation of a required field of a model being
constructed: an omitted argument and an explicit None are both errors. -/
def validateRequired (name : String) : PyArg α → Except PyException α
  | .omitted => .error (.validationError (name ++ ": field required"))
  | .given none => .error (.validationError (name ++ ": none is not an allowed type"))
  | .given (some v) => .ok v

/-- Pydantic v1 validation of a non-Optional field with a default: omitted
arguments take the default, an explicit None is an error. -/
def validateDefault (name : String) (dflt : α) : PyArg α → Except PyException α
  | .omitted => .ok dflt
  | .given none => .error (.validationError (name ++ ": none is not an allowed type"))
  | .given (some v) => .ok v

/-- Pydantic v1 validation of an `Optional` field defaulting to None. -/
def validateOptional : PyArg α → Except PyException (Option α)
  | .omitted => .ok none
  | .given v => .ok v

/-- The validated `CardData` model of `models.py`: the write-intent payload
for create and update calls. -/
structure CardData where
  content : String
  deck_id : String
  template_id : Option String
  fields : Option (List (String × JValue))
  attachments : Option (List JValue)
  archived : Bool
  pos : Option String
  review_reverse : Bool

/-- Constructing a `CardData`, validating each argument per the pydantic
model: `content` and `deck_id` are required `str`, `archived` and
`review_reverse` are non-Optional `bool` defaulting to False, the rest are
`Optional` defaulting to None. -/
def CardData.validate (content : PyArg String) (deck_id : PyArg String)
    (template_id : PyArg String) (fields : PyArg (List (String × JValue)))
    (attachments : PyArg (List JValue)) (archived : PyArg Bool)
    (pos : PyArg String) (review_reverse : PyArg Bool) : Except PyException CardData := do
  let c ← validateRequired "content" content
  let d ← validateRequired "deck_id" deck_id
  let t ← validateOptional template_id
  let f ← validateOptional fields
  let a ← validateOptional attachments
  let ar ← validateDefault "archived" false archived
  let p ← validateOptional pos
  let rr ← validateDefault "review_reverse" false review_reverse
  pure { content := c, deck_id := d, template_id := t, fields := f, attachments := a,
         archived := ar, pos := p, review_reverse := rr }

/-- JSON serialization of an optional string field of a `.dict()` payload:
None becomes an explicit null. -/
def jOfOptStr : Option String → JValue
  | none => .null
  | some s => .str s

/-- JSON serialization of an optional dict field: None becomes null. -/
def jOfOptObj : Option (List (String × JValue)) → JValue
  | none => .null
  | some fs => .obj fs

/-- JSON serialization of an optional list field: None becomes null. -/
def jOfOptArr : Option (List JValue) → JValue
  | none => .null
  | some xs => .arr xs

/-- Pydantic v1 `.dict()` as used by `create_card` and `update_card`: with
no arguments it emits every model field under its field name in declaration
order, None values included (which `requests` serializes as JSON null). -/
def CardData.toDict (cd : CardData) : List (String × JValue) :=
  [("content", .str cd.content), ("deck_id", .str cd.deck_id),
   ("template_id", jOfOptStr cd.template_id), ("fields", jOfOptObj cd.fields),
   ("attachments", jOfOptArr cd.attachments), ("archived", .bool cd.archived),
   ("pos", jOfOptStr cd.pos), ("review_reverse", .bool cd.review_reverse)]

/-- The JSON body `create_card` sends: it passes every one of its parameters
into `CardData` (so `content`, `deck_id`, `archived` and `review_reverse`
are always given concrete values) and serializes the result with
`.dict()`. -/
def createCardBody (content deck_id : String) (template_id : Option String)
    (fields : Option (List (String × JValue))) (attachments : Option (List JValue))
    (archived : Bool) (pos : Option String) (review_reverse : Bool) :
    Except PyException (List (String × JValue)) :=
  (CardData.validate (.given (some content)) (.given (some deck_id)) (.given template_id)
    (.given fields) (.given attachments) (.given (some archived)) (.given pos)
    (.given (some review_reverse))).map CardData.toDict

/-- The JSON body `update_card` sends: it passes `content`, `deck_id`,
`fields`, `attachments`, `archived` and `pos` (each defaulting to None) into
`CardData`, leaves `template_id` and `review_reverse` to the model defaults,
and serializes with `.dict()`. -/
def updateCardBody (content deck_id : Option String)
    (fields : Option (List (String × JValue))) (attachments : Option (List JValue))
    (archived : Option Bool) (pos : Option String) :
    Except PyException (List (String × JValue)) :=
  (CardData.validate (.given content) (.given deck_id) .omitted (.given fields)
    (.given attachments) (.given archived) (.given pos) .omitted).map CardData.toDict

/-- A decoded card like those of the test fixtures, used as server output in
the pagination scenarios. -/
def pageCard (i : String) : Card :=
  { id := i, content := "# Hello, world!", deck_id := "eH53Hxe8", template_id := none,
    fields := [], attachments := [], archived := false, pos := some "1",
    created_at := [("date", MDateTime.fromIso "2021-09-09T02:49:58.535Z")],
    updated_at := [("date", MDateTime.fromIso "2021-09-09T02:49:58.535Z")],
    tags := [], name := some "Hello world", references := [], reviews := [] }

/-- A server serving the three-page scenario of the spec and the repo's
pagination test: two cards with token bookmark1, two cards with token
bookmark2, then an empty page with a null token. -/
def threePageServer : PageRequest → PaginatedCards := fun req =>
  match req.bookmark with
  | none => { bookmark := some "bookmark1", docs := [pageCard "card_1", pageCard "card_2"] }
  | some "bookmark1" => { bookmark := some "bookmark2", docs := [pageCard "card_3", pageCard "card_4"] }
  | some _ => { bookmark := none, docs := [] }

/-- A server whose every page carries one card but no continuation token. -/
def tokenlessPageServer : PageRequest → PaginatedCards :=
  fun _ => { bookmark := none, docs := [pageCard "card_9"] }

/-- The first card of the repo's list test fixture as it appears on the
wire, extended with the unknown key new? that real service responses carry
(cf. the create/get test fixtures); `template-id` is an explicit null. -/
def wireCardWithExtras : List (String × JValue) :=
  [("tags", .arr []), ("content", .str "# Hello, world!"), ("name", .str "Hello world"),
   ("deck-id", .str "eH53Hxe8"), ("fields", .obj []), ("pos", .str "1"),
   ("references", .arr []), ("id", .str "card_1"), ("reviews", .arr []),
   ("created-at", .obj [("date", .str "2021-09-09T02:49:58.535Z")]),
   ("updated-at", .obj [("date", .str "2021-09-09T02:49:58.535Z")]),
   ("new?", .bool false), ("archived?", .bool false), ("template-id", .null)]

/-- The record `wireCardWithExtras` decodes to. -/
def decodedCardOne : Card :=
  { id := "card_1", content := "# Hello, world!", deck_id := "eH53Hxe8",
    template_id := none, fields := [], attachments := [], archived := false,
    pos := some "1",
    created_at := [("date", MDateTime.fromIso "2021-09-09T02:49:58.535Z")],
    updated_at := [("date", MDateTime.fromIso "2021-09-09T02:49:58.535Z")],
    tags := [], name := some "Hello world", references := [], reviews := [] }

/-- A wire response carrying everything except the identifier field. -/
def wireCardMissingId : List (String × JValue) :=
  [("content", .str "Sample content"), ("deck-id", .str "deck_456"),
   ("created-at", .obj [("date", .str "2021-09-10T01:29:49.879Z")]),
   ("updated-at", .obj [("date", .str "2021-09-11T14:23:53.250Z")])]

/-- The full `.dict()` payload `create_card` produces when only the
required arguments are supplied. -/
def createDefaultBody : List (String × JValue) :=
  [("content", .str "Hello world"), ("deck_id", .str "deck_123"),
   ("template_id", .null), ("fields", .null), ("attachments", .null),
   ("archived", .bool false), ("pos", .null), ("review_reverse", .bool false)]

/-- A wire response whose identifier field is present but ill-shaped: an
array can never validate as `str`. -/
def wireCardArrayId : List (String × JValue) :=
  [("id", .arr []), ("content", .str "Sample content"), ("deck-id", .str "deck_456"),
   ("created-at", .obj [("date", .str "2021-09-10T01:29:49.879Z")]),
   ("updated-at", .obj [("date", .str "2021-09-11T14:23:53.250Z")])]

/-- A wire response whose deck reference is a number instead of a string. -/
def wireCardNumericDeckId : List (String × JValue) :=
  [("id", .str "card_7"), ("content", .str "Sample content"), ("deck-id", .num 42),
   ("created-at", .obj [("date", .str "2021-09-10T01:29:49.879Z")]),
   ("updated-at", .obj [("date", .str "2021-09-11T14:23:53.250Z")])]

/-- The required string field at `key` is missing or ill-shaped for the
`Card` model: the key is absent, or its value is one the pydantic `str`
validator rejects (null, array or object).  Numbers and booleans are not
ill-shaped for the model: pydantic coerces them to strings. -/
def missingOrIllShaped (d : List (String × JValue)) (key : String) : Prop :=
  List.lookup key d = none ∨
    ∃ v, List.lookup key d = some v ∧ (strValidate v).isOk = false

/-- Binding a failed `Except` computation short-circuits. -/
theorem except_error_bind (e : ε) (f : α → Except ε β) :
    (Except.error e >>= f : Except ε β) = Except.error e := rfl

/-- Binding a successful `Except` computation continues with its value. -/
theorem except_ok_bind (a : α) (f : α → Except ε β) :
    (Except.ok a >>= f : Except ε β) = f a := rfl

/-- A failed `Except` computation is not ok. -/
theorem except_isOk_error (e : ε) : (Except.error e : Except ε α).isOk = false := rfl

/-- Filtering an association list with a predicate that keeps every pair
with key `k` does not change what `k` is bound to. -/
theorem lookup_filter_keep (f : String × JValue → Bool) (k : String)
    (hf : ∀ v, f (k, v) = true) :
    ∀ d : List (String × JValue), List.lookup k (d.filter f) = List.lookup k d := by
  intro d
  induction d with
  | nil => rfl
  | cons p t ih =>
    obtain ⟨a, b⟩ := p
    by_cases hak : a = k
    · subst hak
      simp [List.filter_cons, hf b, List.lookup]
    · have hbeq : (k == a) = false := beq_eq_false_iff_ne.mpr (fun h => hak h.symm)
      by_cases hfa : f (a, b) = true
      · simp [List.filter_cons, hfa, List.lookup, hbeq, ih]
      · simp only [Bool.not_eq_true] at hfa
        simp [List.filter_cons, hfa, List.lookup, hbeq, ih]

/-- A key the `Card` model consults is bound to the same value before and
after unknown keys are removed. -/
theorem lookup_knownOnly (k : String) (hk : cardWireKeys.contains k = true)
    (d : List (String × JValue)) :
    List.lookup k (knownOnly d) = List.lookup k d :=
  lookup_filter_keep (fun p => cardWireKeys.contains p.1) k (fun _ => hk) d

/-- Removing the keys the `Card` model does not consult leaves decoding
unchanged. -/
theorem decodeCard_knownOnly (d : List (String × JValue)) :
    decodeCard (knownOnly d) = decodeCard d := by
  simp only [decodeCard, reqField, dfltField, optJField,
    lookup_knownOnly "id" (by decide) d,
    lookup_knownOnly "content" (by decide) d,
    lookup_knownOnly "deck-id" (by decide) d,
    lookup_knownOnly "template-id" (by decide) d,
    lookup_knownOnly "fields" (by decide) d,
    lookup_knownOnly "attachments" (by decide) d,
    lookup_knownOnly "archived?" (by decide) d,
    lookup_knownOnly "pos" (by decide) d,
    lookup_knownOnly "created-at" (by decide) d,
    lookup_knownOnly "updated-at" (by decide) d,
    lookup_knownOnly "tags" (by decide) d,
    lookup_knownOnly "name" (by decide) d,
    lookup_knownOnly "references" (by decide) d,
    lookup_knownOnly "reviews" (by decide) d]

/-- C1, counterexample: the server's only page carries card_9 and a null
token, yet `list_cards` yields nothing — the termination check runs before
the yield loop, so the page's cards are discarded, refuting that "the driver
yields every card of that page".  Exactly one request is issued. -/
theorem listCards_tokenless_cards_dropped_cex :
    listCards tokenlessPageServer none none none 5 = ([], [⟨none, none, none⟩]) ∧
    (tokenlessPageServer ⟨none, none, none⟩).docs = [pageCard "card_9"] :=
  ⟨rfl, rfl⟩

/-- C1, amended: when a page response has a non-empty card sequence but an
absent/null (or empty) continuation token, `list_cards` stops immediately,
yielding none of that page's cards and issuing no further page request. -/
theorem listCards_tokenless_page_stops_early (fetch : PageRequest → PaginatedCards)
    (d : Option String) (l : Option Int) (b : Option String) (fuel : Nat)
    (hdocs : (fetch ⟨d, l, b⟩).docs ≠ [])
    (htok : pyFalsyOptStr (fetch ⟨d, l, b⟩).bookmark = true) :
    listCards fetch d l b (fuel + 1) = ([], [⟨d, l, b⟩]) := by
  simp [listCards, htok]

/-- C1, witness for the amended theorem at the one-page tokenless server. -/
theorem listCards_tokenless_page_stops_early_witness :
    (tokenlessPageServer ⟨none, none, none⟩).docs ≠ [] ∧
    pyFalsyOptStr (tokenlessPageServer ⟨none, none, none⟩).bookmark = true ∧
    listCards tokenlessPageServer none none none 1 = ([], [⟨none, none, none⟩]) :=
  ⟨by simp [tokenlessPageServer], rfl,
    listCards_tokenless_page_stops_early tokenlessPageServer none none none 0
      (by simp [tokenlessPageServer]) rfl⟩

/-- C2: evaluating `update_card`'s encode step.  First conjunct: the failing
input — an update setting only the archived flag — does not succeed; the
`CardData` constructor rejects the unset `content` (passed as None into a
required `str` field), so the claimed partial payload is never produced.
Second conjunct: even when content, deck and archived are all set, the
payload carries all eight fields, the unmentioned ones as explicit nulls,
not "exactly the fields the caller mentioned". -/
theorem updateCard_partial_encode_behavior :
    updateCardBody none none none none (some true) none =
      Except.error (PyException.validationError "content: none is not an allowed type") ∧
    updateCardBody (some "new content") (some "deck_123") none none (some false) none =
      Except.ok [("content", JValue.str "new content"), ("deck_id", JValue.str "deck_123"),
        ("template_id", JValue.null), ("fields", JValue.null), ("attachments", JValue.null),
        ("archived", JValue.bool false), ("pos", JValue.null),
        ("review_reverse", JValue.bool false)] :=
  ⟨rfl, rfl⟩

/-- C3, counterexample: creating a card with only the required arguments
produces a body in which every unsupplied optional field (template_id,
fields, attachments, pos) is present with an explicit null value — it is not
omitted from the JSON body. -/
theorem createCard_omitted_fields_sent_as_null_cex :
    createCardBody "Hello world" "deck_123" none none none false none false =
      Except.ok createDefaultBody ∧
    List.lookup "template_id" createDefaultBody = some JValue.null ∧
    List.lookup "pos" createDefaultBody = some JValue.null :=
  ⟨rfl, rfl, rfl⟩

/-- C3, amended: every create body contains all eight `CardData` fields;
each optional field the caller did not supply is transmitted as an explicit
null rather than omitted. -/
theorem createCard_body_contains_all_fields (content deck_id : String)
    (template_id : Option String) (fields : Option (List (String × JValue)))
    (attachments : Option (List JValue)) (archived : Bool) (pos : Option String)
    (review_reverse : Bool) :
    createCardBody content deck_id template_id fields attachments archived pos
        review_reverse =
      Except.ok [("content", JValue.str content), ("deck_id", JValue.str deck_id),
        ("template_id", jOfOptStr template_id), ("fields", jOfOptObj fields),
        ("attachments", jOfOptArr attachments), ("archived", JValue.bool archived),
        ("pos", jOfOptStr pos), ("review_reverse", JValue.bool review_reverse)] := rfl

/-- C4, counterexample: `get_card` surfaces a 404 and a 401 as the generic
`requests.HTTPError` raised by `raise_for_status`, not as the distinguished
MochiNotFoundError / MochiAuthenticationError of `errors.py` (those are
raised only by `trash_card`). -/
theorem getCard_distinguished_errors_cex :
    getCard { status := 404, body := [] } = Except.error (PyException.httpError 404) ∧
    getCard { status := 401, body := [] } = Except.error (PyException.httpError 401) :=
  ⟨rfl, rfl⟩

/-- C4, amended: whatever the response body, a 404 on fetch-by-id raises the
generic HTTP status error with status 404 and a 401 raises it with status
401; in both cases no Card record is returned. -/
theorem getCard_generic_http_errors (body : List (String × JValue)) :
    getCard { status := 404, body := body } = Except.error (PyException.httpError 404) ∧
    getCard { status := 401, body := body } = Except.error (PyException.httpError 401) :=
  ⟨rfl, rfl⟩

/-- C5: against the three-page server (2 cards with token bookmark1, 2 cards
with token bookmark2, then an empty page with a null token), `list_cards`
yields exactly card_1, card_2, card_3, card_4 in server order and the
request trace is exactly the three page requests — no fourth request is
issued. -/
theorem listCards_three_pages :
    listCards threePageServer none none none 10 =
      ([pageCard "card_1", pageCard "card_2", pageCard "card_3", pageCard "card_4"],
       [⟨none, none, none⟩, ⟨none, none, some "bookmark1"⟩,
        ⟨none, none, some "bookmark2"⟩]) := rfl

/-- C6: every page request issued by a `list_cards` iteration — the first
and every continuation request — carries the deck_id and limit the caller
supplied, unchanged; the bookmark is the only component that varies. -/
theorem listCards_filters_forwarded (fetch : PageRequest → PaginatedCards)
    (d : Option String) (l : Option Int) (fuel : Nat) :
    ∀ (b : Option String) (r : PageRequest), r ∈ (listCards fetch d l b fuel).2 →
      r.deck_id = d ∧ r.limit = l := by
  induction fuel with
  | zero =>
    intro b r hr
    simp [listCards] at hr
  | succ n ih =>
    intro b r hr
    simp only [listCards] at hr
    by_cases hc : ((fetch ⟨d, l, b⟩).docs.isEmpty
        || pyFalsyOptStr (fetch ⟨d, l, b⟩).bookmark) = true
    · rw [if_pos hc] at hr
      simp at hr
      subst hr
      exact ⟨rfl, rfl⟩
    · rw [if_neg hc] at hr
      simp only [List.mem_cons] at hr
      rcases hr with hr | hr
      · subst hr
        exact ⟨rfl, rfl⟩
      · exact ih (fetch ⟨d, l, b⟩).bookmark r hr

/-- C6, witness: in the three-page run filtered by deck eH53Hxe8 with limit
10, the second (continuation) request still carries that deck_id and
limit. -/
theorem listCards_filters_forwarded_witness :
    (⟨some "eH53Hxe8", some 10, some "bookmark1"⟩ : PageRequest) ∈
      (listCards threePageServer (some "eH53Hxe8") (some 10) none 10).2 ∧
    ((some "eH53Hxe8" : Option String) = some "eH53Hxe8" ∧
      (some 10 : Option Int) = some 10) :=
  ⟨by decide,
    listCards_filters_forwarded threePageServer (some "eH53Hxe8") (some 10) 10 none
      ⟨some "eH53Hxe8", some 10, some "bookmark1"⟩ (by decide)⟩

/-- A missing-or-ill-shaped required field makes its extraction fail. -/
theorem reqField_fails_of_missingOrIllShaped (d : List (String × JValue))
    (key : String) (h : missingOrIllShaped d key) :
    (reqField d key strValidate).isOk = false := by
  rcases h with h | ⟨v, hv, hbad⟩
  · simp [reqField, h, except_isOk_error]
  · simp [reqField, hv, hbad]

/-- C7, counterexample: a response whose deck reference is the number 42 —
ill-shaped for a string identifier — does not fail to decode: pydantic's
str validator coerces the number, and a fully populated Card with deck_id
"42" is returned. -/
theorem decodeCard_coerced_deck_id_cex :
    decodeCard wireCardNumericDeckId = Except.ok
      { id := "card_7", content := "Sample content", deck_id := "42",
        template_id := none, fields := [], attachments := [], archived := false,
        pos := none,
        created_at := [("date", MDateTime.fromIso "2021-09-10T01:29:49.879Z")],
        updated_at := [("date", MDateTime.fromIso "2021-09-11T14:23:53.250Z")],
        tags := [], name := none, references := [], reviews := [] } := rfl

/-- C7, amended: a wire response in which a required field (identifier,
content, or deck reference) is absent, or present with a value the str
validator rejects (null, array or object — numbers and booleans are
coerced to strings, not rejected), never decodes to a Card: decoding
fails, and a partially populated record is impossible. -/
theorem decodeCard_bad_required_fails (d : List (String × JValue))
    (h : missingOrIllShaped d "id" ∨ missingOrIllShaped d "content" ∨
      missingOrIllShaped d "deck-id") :
    (decodeCard d).isOk = false := by
  rcases h with h | h | h
  · have hq := reqField_fails_of_missingOrIllShaped d "id" h
    cases hE : reqField d "id" strValidate with
    | error e => simp [decodeCard, hE, except_error_bind, except_isOk_error]
    | ok a => rw [hE] at hq; simp [Except.isOk, Except.toBool] at hq
  · have hq := reqField_fails_of_missingOrIllShaped d "content" h
    cases hid : reqField d "id" strValidate with
    | error e => simp [decodeCard, hid, except_error_bind, except_isOk_error]
    | ok a =>
      cases hE : reqField d "content" strValidate with
      | error e =>
        simp [decodeCard, hid, hE, except_ok_bind, except_error_bind, except_isOk_error]
      | ok b => rw [hE] at hq; simp [Except.isOk, Except.toBool] at hq
  · have hq := reqField_fails_of_missingOrIllShaped d "deck-id" h
    cases hid : reqField d "id" strValidate with
    | error e => simp [decodeCard, hid, except_error_bind, except_isOk_error]
    | ok a =>
      cases hct : reqField d "content" strValidate with
      | error e =>
        simp [decodeCard, hid, hct, except_ok_bind, except_error_bind, except_isOk_error]
      | ok b =>
        cases hE : reqField d "deck-id" strValidate with
        | error e =>
          simp [decodeCard, hid, hct, hE, except_ok_bind, except_error_bind,
            except_isOk_error]
        | ok c2 => rw [hE] at hq; simp [Except.isOk, Except.toBool] at hq

/-- C7, witness for the amended theorem: the response lacking the id key
and the response whose id is an array both fail to decode. -/
theorem decodeCard_bad_required_fails_witness :
    missingOrIllShaped wireCardMissingId "id" ∧
    (decodeCard wireCardMissingId).isOk = false ∧
    missingOrIllShaped wireCardArrayId "id" ∧
    (decodeCard wireCardArrayId).isOk = false :=
  ⟨Or.inl rfl,
   decodeCard_bad_required_fails wireCardMissingId (Or.inl (Or.inl rfl)),
   Or.inr ⟨JValue.arr [], rfl, rfl⟩,
   decodeCard_bad_required_fails wireCardArrayId
     (Or.inl (Or.inr ⟨JValue.arr [], rfl, rfl⟩))⟩

/-- C8: constructing the client with no api_key argument and no
MOCHI_API_KEY in the environment fails with the construction-time
credential error (Python's ValueError, the spec's ConfigurationError),
whatever the base address; the constructor contains no HTTP call, so zero
network requests are made. -/
theorem clientInit_missing_key_fails (base_url : String) :
    MochiClient.init none none base_url =
      Except.error (PyException.valueError apiKeyErrorMsg) := rfl

/-- C9: evaluating the request URLs of a client configured with a
non-default base address.  create, fetch, list, update and delete all
target the configured base, but `trash_card` interpolates the class
attribute BASE_URL and therefore targets the built-in default address, not
the configured one. -/
theorem trashCard_ignores_configured_base :
    trashCardUrl { api_key := "key", base_url := "https://alt.example/api" } "card_1" =
      "https://api.mochi.cards/api/cards/card_1/trash" ∧
    trashCardUrl { api_key := "key", base_url := "https://alt.example/api" } "card_1" ≠
      "https://alt.example/api/cards/card_1/trash" ∧
    createCardUrl { api_key := "key", base_url := "https://alt.example/api" } =
      "https://alt.example/api/cards/" ∧
    getCardUrl { api_key := "key", base_url := "https://alt.example/api" } "card_1" =
      "https://alt.example/api/cards/card_1" ∧
    listCardsUrl { api_key := "key", base_url := "https://alt.example/api" } =
      "https://alt.example/api/cards/" ∧
    updateCardUrl { api_key := "key", base_url := "https://alt.example/api" } "card_1" =
      "https://alt.example/api/cards/card_1" ∧
    deleteCardUrl { api_key := "key", base_url := "https://alt.example/api" } "card_1" =
      "https://alt.example/api/cards/card_1" := by
  refine ⟨rfl, by decide, rfl, rfl, rfl, rfl, rfl⟩

/-- C10: a wire response that decodes to a Card once its unknown keys are
removed decodes, unchanged, to the very same Card: keys the model does not
consult (such as new?) are silently ignored, never an error and never
stored. -/
theorem decodeCard_ignores_unknown_keys (d : List (String × JValue)) (c : Card)
    (h : decodeCard (knownOnly d) = Except.ok c) : decodeCard d = Except.ok c := by
  rw [decodeCard_knownOnly] at h
  exact h

/-- C10, witness: the fixture response carrying the unknown new? key decodes
to the same record with and without that key. -/
theorem decodeCard_ignores_unknown_keys_witness :
    decodeCard (knownOnly wireCardWithExtras) = Except.ok decodedCardOne ∧
    decodeCard wireCardWithExtras = Except.ok decodedCardOne :=
  ⟨rfl, decodeCard_ignores_unknown_keys wireCardWithExtras decodedCardOne rfl⟩
